import Mathlib

/-!
Verification of the vitality multiplayer/session layer.

Shallow embedding of:
* the game store (`src/src/store/gameStore.ts`): `applyGameAction`, `applyRemoteState`;
* the host-side sync engine and teardown paths (`src/unnamed/part_014`, the
  multiplayer zustand store): `broadcastToClients`, `sendGameAction` / broadcast
  callback, `cleanup`, `suspendLobby`, `leaveLobby`, the `ws.onclose` reconnect
  logic of `joinLobby`;
* the signaling relay Durable Object (`src/unnamed/part_016`, `LobbySession`):
  `fetch` routing, `handleInit`, `handleWebSocket`, `webSocketMessage`,
  `handleMessage`, `webSocketClose`, `closeLobby`, `getLobbyInfo`.

JavaScript `Map`s and plain objects are embedded as insertion-ordered
association lists; `Date.now()` is threaded as an explicit `now` argument;
effects (WebSocket sends and closes, storage writes) are returned as explicit
effect lists.
-/

set_option maxHeartbeats 1000000

namespace Vitality

/-! ## Game data model (src/src/types/index.ts) -/

/-- `PlayerTheme` from src/src/types/index.ts. -/
structure PlayerTheme where
  primaryColor : String
  backgroundColor : String
deriving Repr, DecidableEq

/-- `Partial<PlayerTheme>`: each field optionally present. -/
structure ThemePatch where
  primaryColor : Option String := none
  backgroundColor : Option String := none
deriving Repr, DecidableEq

/-- JS object spread `{ ...theme, ...patch }`. -/
def PlayerTheme.applyPatch (t : PlayerTheme) (p : ThemePatch) : PlayerTheme :=
  { primaryColor := p.primaryColor.getD t.primaryColor
    backgroundColor := p.backgroundColor.getD t.backgroundColor }

/-- `CounterState` from src/src/types/index.ts; `type` is one of the
`CounterType` string literals, embedded as `String`. -/
structure CounterState where
  id : String
  ctype : String
  value : Int
  label : Option String := none
  icon : Option String := none
deriving Repr, DecidableEq

/-- A JS plain object used as a string-keyed record, insertion ordered. -/
abbrev JsRecord (β : Type) := List (String × β)

/-- `obj[k]` returning `none` when absent. -/
def recordGet {β : Type} (m : JsRecord β) (k : String) : Option β :=
  (m.find? (fun p => p.1 == k)).map (fun p => p.2)

/-- `{ ...obj, [k]: v }`: replace in place if the key exists, else append. -/
def recordSet {β : Type} (m : JsRecord β) (k : String) (v : β) : JsRecord β :=
  if m.any (fun p => p.1 == k) then
    m.map (fun p => if p.1 == k then (k, v) else p)
  else
    m ++ [(k, v)]

/-- `Player` from src/src/types/index.ts (with the extra
`enabledSecondaryCounters` field used by the store). -/
structure Player where
  id : String
  name : String
  theme : PlayerTheme
  counters : List CounterState
  commanderDamage : JsRecord Int
  activeCounterIndex : Int
  enabledSecondaryCounters : List String
deriving Repr, DecidableEq

/-- `GameSettings` from src/src/types/index.ts. -/
structure GameSettings where
  startingLife : Int
  allowSleep : Bool
  playerCount : Int
deriving Repr, DecidableEq

/-- `HighrollModeState`. -/
structure HighrollModeState where
  isActive : Bool
  results : JsRecord Int
  startTimestamp : Option Int
deriving Repr, DecidableEq

/-- `CommanderAttackModeState`. -/
structure CommanderAttackModeState where
  isActive : Bool
  attackingPlayerId : Option String
  attackerRotation : Int
deriving Repr, DecidableEq

/-- The slice of the `useGameStore` zustand state touched by `applyGameAction`
and `applyRemoteState` (src/src/store/gameStore.ts). -/
structure GameState where
  players : List Player
  settings : GameSettings
  highrollMode : HighrollModeState
  commanderAttackMode : CommanderAttackModeState
deriving Repr, DecidableEq

/-- `getDefaultCounters` from src/src/utils/counter.ts. `generateId()` draws a
fresh random id for each counter; the ids are modelled by a fixed supply, no
claim observes them. -/
def getDefaultCounters (startingLife : Int) : List CounterState :=
  [ { id := "c1", ctype := "life", value := startingLife, icon := some "Heart" },
    { id := "c2", ctype := "poison", value := 0, icon := some "Skull" },
    { id := "c3", ctype := "energy", value := 0, icon := some "Zap" },
    { id := "c4", ctype := "experience", value := 0, icon := some "Star" },
    { id := "c5", ctype := "radiation", value := 0, icon := some "Radiation" } ]

/-- `Object.values(MANA_COLORS)` from src/src/utils/colors.ts, in key order. -/
def manaColorValues : List String :=
  ["#967a00ce", "#008d47c7", "#002a96ff", "#af00299a", "#1F1F1F"]

/-- `getColorPreset` from src/src/utils/colors.ts: `colors[index % colors.length]`. -/
def getColorPreset (index : Nat) : String :=
  (manaColorValues.get? (index % manaColorValues.length)).getD ""

/-- The random player ids drawn by `createPlayers`' first pass, modelled as a
fixed supply `p1, p2, ...`; no claim observes the id values themselves. -/
def playerIdSupply (count : Nat) : List String :=
  (List.range count).map (fun i => "p" ++ toString (i + 1))

/-- `createPlayers` from src/src/store/gameStore.ts. -/
def createPlayers (count : Nat) (startingLife : Int) : List Player :=
  let playerIds := playerIdSupply count
  playerIds.enum.map (fun p =>
    let index := p.1
    let pid := p.2
    { id := pid
      name := "Player " ++ toString (index + 1)
      theme := { primaryColor := "#ffffff", backgroundColor := getColorPreset index }
      counters := getDefaultCounters startingLife
      commanderDamage := (playerIds.filter (fun otherId => otherId ≠ pid)).map (fun otherId => (otherId, 0))
      activeCounterIndex := 0
      enabledSecondaryCounters := [] })

/-- `GameAction` from src/src/types/multiplayer.ts. `START_HIGHROLL` carries
the `results` record from the sender; `Date.now()` used when applying it is
threaded as an explicit argument of `applyGameAction`. -/
inductive GameAction where
  | UPDATE_COUNTER (playerId counterType : String) (delta : Int)
  | SET_COUNTER (playerId counterType : String) (value : Int)
  | UPDATE_COMMANDER_DAMAGE (targetPlayerId sourcePlayerId : String) (delta : Int)
  | SET_PLAYER_NAME (playerId name : String)
  | SET_PLAYER_THEME (playerId : String) (theme : ThemePatch)
  | RESET_COUNTERS
  | SET_PLAYER_COUNT (count : Int)
  | TOGGLE_SECONDARY_COUNTER (playerId counterType : String) (enabled : Bool)
  | START_HIGHROLL (results : JsRecord Int)
  | END_HIGHROLL
deriving Repr, DecidableEq

/-- `applyGameAction` from src/src/store/gameStore.ts (lines 127-249): the
state transition of the switch, with `Date.now()` passed as `now`. The
trailing host-broadcast hook (lines 252-254) is modelled separately by
`applyGameActionHost`. -/
def applyGameAction (now : Int) (action : GameAction) (st : GameState) : GameState :=
  match action with
  | .UPDATE_COUNTER playerId counterType delta =>
      { st with players := st.players.map (fun player =>
          if player.id ≠ playerId then player else
          { player with counters := player.counters.map (fun counter =>
              if counter.ctype ≠ counterType then counter else
              { counter with value := counter.value + delta }) }) }
  | .SET_COUNTER playerId counterType value =>
      { st with players := st.players.map (fun player =>
          if player.id ≠ playerId then player else
          { player with counters := player.counters.map (fun counter =>
              if counter.ctype ≠ counterType then counter else
              { counter with value := value }) }) }
  | .UPDATE_COMMANDER_DAMAGE targetPlayerId sourcePlayerId delta =>
      { st with players := st.players.map (fun player =>
          if player.id ≠ targetPlayerId then player else
          let currentDamage := (recordGet player.commanderDamage sourcePlayerId).getD 0
          let newDamage := recordSet player.commanderDamage sourcePlayerId (max 0 (currentDamage + delta))
          { player with commanderDamage := newDamage }) }
  | .SET_PLAYER_NAME playerId name =>
      { st with players := st.players.map (fun player =>
          if player.id = playerId then { player with name := name } else player) }
  | .SET_PLAYER_THEME playerId theme =>
      { st with players := st.players.map (fun player =>
          if player.id = playerId then
            { player with theme := player.theme.applyPatch theme }
          else player) }
  | .RESET_COUNTERS =>
      { st with players := st.players.map (fun player =>
          { player with
              counters := getDefaultCounters st.settings.startingLife
              commanderDamage := player.commanderDamage.map (fun p => (p.1, 0))
              activeCounterIndex := 0
              enabledSecondaryCounters := [] }) }
  | .SET_PLAYER_COUNT count =>
      let clampedCount := min 6 (max 1 count)
      { st with
          players := createPlayers clampedCount.toNat st.settings.startingLife
          settings := { st.settings with playerCount := clampedCount } }
  | .TOGGLE_SECONDARY_COUNTER playerId counterType enabled =>
      { st with players := st.players.map (fun player =>
          if player.id ≠ playerId then player else
          let enabledSecondaryCounters :=
            if enabled then player.enabledSecondaryCounters ++ [counterType]
            else player.enabledSecondaryCounters.filter (fun t => t ≠ counterType)
          { player with enabledSecondaryCounters := enabledSecondaryCounters }) }
  | .START_HIGHROLL results =>
      { st with
          highrollMode := { isActive := true, results := results, startTimestamp := some now }
          commanderAttackMode := { isActive := false, attackingPlayerId := none, attackerRotation := 0 } }
  | .END_HIGHROLL =>
      { st with highrollMode := { isActive := false, results := [], startTimestamp := none } }

/-- `applyRemoteState` from src/src/store/gameStore.ts (lines 507-528): merge
an incoming snapshot into the local mirror, preserving each merged player's
device-local `activeCounterIndex` (matched by id first, then by position). -/
def applyRemoteState (st : GameState) (players : List Player) (settings : GameSettings)
    (highrollMode : Option HighrollModeState) : GameState :=
  let currentPlayers := st.players
  let mergedPlayers := players.enum.map (fun p =>
    let index := p.1
    let remotePlayer := p.2
    let localPlayer :=
      match currentPlayers.find? (fun q => q.id == remotePlayer.id) with
      | some q => some q
      | none => currentPlayers.get? index
    let localActive := (localPlayer.map (fun q => q.activeCounterIndex)).getD 0
    { remotePlayer with activeCounterIndex := localActive })
  { st with
      players := mergedPlayers
      settings := settings
      highrollMode := highrollMode.getD st.highrollMode }

/-- Agreement of two players on every field except the device-local
`activeCounterIndex`. -/
def Player.eqExceptActive (a b : Player) : Prop :=
  a.id = b.id ∧ a.name = b.name ∧ a.theme = b.theme ∧ a.counters = b.counters ∧
    a.commanderDamage = b.commanderDamage ∧
    a.enabledSecondaryCounters = b.enabledSecondaryCounters

/-! ## Multiplayer store (src/unnamed/part_014, the zustand multiplayer store) -/

/-- `ConnectionState` from src/src/types/multiplayer.ts. -/
inductive ConnState where
  | disconnected
  | connecting
  | connected
  | reconnecting
deriving Repr, DecidableEq, BEq

/-- `PeerInfo` from src/src/types/multiplayer.ts. -/
structure PeerInfo where
  odPeerId : String
  name : String
  picture : Option String
  isHost : Bool
deriving Repr, DecidableEq

/-- `LobbyInfo` from src/src/types/multiplayer.ts. -/
structure LobbyInfo where
  lobbyCode : String
  hostId : String
  createdAt : Int
  peers : List PeerInfo
  peerCount : Nat
  maxPeers : Nat
deriving Repr, DecidableEq

/-- `P2P_STATE_SYNC` payload from src/src/types/multiplayer.ts. -/
structure StateSyncPayload where
  players : List Player
  settings : GameSettings
  gameStarted : Bool
  highrollMode : HighrollModeState
  timestamp : Int
deriving Repr, DecidableEq

/-- Host-to-client data-channel messages from src/src/types/multiplayer.ts. -/
inductive P2PHostMessage where
  | STATE_SYNC (payload : StateSyncPayload)
  | GAME_STARTED (players : List Player) (settings : GameSettings)
  | LOBBY_CLOSED (reason : String)
  | PEER_UPDATE (peers : List PeerInfo)
  | PING (timestamp : Int)
  | PONG (timestamp : Int)
deriving Repr, DecidableEq

/-- A host-side entry of the `peerConnections` map: the fields of
`PeerConnection` observable by the sync engine (`dc?.readyState === 'open'`
collapsed to `dcOpen`; the raw RTC handles carry no protocol state). -/
structure Channel where
  odPeerId : String
  dcOpen : Bool
deriving Repr, DecidableEq

/-- JS truthiness of an optional string (`!!s`: absent and `""` are falsy). -/
def jsTruthyStr : Option String → Bool
  | none => false
  | some s => s ≠ ""

/-- The host-side environment the broadcast path reads: `isHost`,
`connectionState`, `lobbyCode`, `gameStarted` and the `peerConnections` map of
the multiplayer store. -/
structure HostEnv where
  isHost : Bool
  connectionState : ConnState
  lobbyCode : Option String
  gameStarted : Bool
  channels : List Channel
deriving Repr, DecidableEq

/-- The multiplayer check registered by `registerMultiplayerBridge`
(src/unnamed/part_014 lines 1052-1059):
`connectionState === 'connected' && !!lobbyCode`. -/
def isMultiplayer (e : HostEnv) : Bool :=
  (e.connectionState == ConnState.connected) && jsTruthyStr e.lobbyCode

/-- `broadcastToClients` (src/unnamed/part_014 lines 581-593): only the host
broadcasts, to every peer whose data channel is open. -/
def broadcastToClients (e : HostEnv) (message : P2PHostMessage) : List (String × P2PHostMessage) :=
  if !e.isHost then [] else
  (e.channels.filter (fun peer => peer.dcOpen)).map (fun peer => (peer.odPeerId, message))

/-- The `P2P_STATE_SYNC` message built by the host (src/unnamed/part_014 lines
601-611, 718-727 and 1067-1076): current store players/settings, the store's
`gameStarted` flag and highroll mode, and `Date.now()` as `timestamp`. -/
def stateSyncMessage (g : GameState) (gameStarted : Bool) (now : Int) : P2PHostMessage :=
  .STATE_SYNC
    { players := g.players
      settings := g.settings
      gameStarted := gameStarted
      highrollMode := g.highrollMode
      timestamp := now }

/-- The broadcast callback registered by `registerBroadcastCallback`
(src/unnamed/part_014 lines 1062-1078): a non-host broadcasts nothing, the
host fans a fresh `P2P_STATE_SYNC` out via `broadcastToClients`. -/
def broadcastState (e : HostEnv) (g : GameState) (now : Int) : List (String × P2PHostMessage) :=
  if !e.isHost then [] else
  broadcastToClients e (stateSyncMessage g e.gameStarted now)

/-- `applyGameAction` including its trailing multiplayer hook
(src/src/store/gameStore.ts lines 252-254): apply the action to the store,
then, if this device is the connected host, broadcast the updated state. -/
def applyGameActionHost (e : HostEnv) (now : Int) (action : GameAction) (g : GameState) :
    GameState × List (String × P2PHostMessage) :=
  let g' := applyGameAction now action g
  (g', if isMultiplayer e && e.isHost then broadcastState e g' now else [])

/-- The host's `handleP2PMessage` on a `P2P_ACTION` envelope
(src/unnamed/part_014 lines 733-736) applied to a whole sequence of
`(Date.now(), action)` events: returns the final store state and the
per-event broadcast lists. -/
def hostRunActions (e : HostEnv) (g : GameState) :
    List (Int × GameAction) → GameState × List (List (String × P2PHostMessage))
  | [] => (g, [])
  | (t, a) :: rest =>
      let step := applyGameActionHost e t a g
      let run := hostRunActions e step.1 rest
      (run.1, step.2 :: run.2)

/-! ### Device-local teardown paths -/

/-- Teardown effects of the multiplayer store: closing the signaling control
channel, closing a peer data link, and the suspend signal sent to the relay. -/
inductive TeardownEffect where
  | closeControl
  | closeLink (odPeerId : String)
  | sendSuspendSignal
deriving Repr, DecidableEq

/-- The slice of the multiplayer zustand state written by `cleanup`,
`suspendLobby`, `leaveLobby` and the `ws.onclose` handler
(src/unnamed/part_014). `signalingWs` is `none` when the field is null,
`some b` when a socket is present with `b` = (`readyState === OPEN`). -/
structure MpState where
  connectionState : ConnState
  signalingWs : Option Bool
  myPeerId : Option String
  lobbyCode : Option String
  lobbyInfo : Option LobbyInfo
  isHost : Bool
  guestToken : Option String
  peerConnections : List String
  hostConnection : Option String
  connectedPeers : List PeerInfo
  gameStarted : Bool
  error : Option String
  myLobbies : List String
deriving Repr, DecidableEq

/-- `cleanup` (src/unnamed/part_014 lines 998-1042): close the control
channel and every data link, then reset all connection bookkeeping. -/
def cleanup (st : MpState) : MpState × List TeardownEffect :=
  let effs :=
    (if st.signalingWs.isSome then [TeardownEffect.closeControl] else [])
      ++ st.peerConnections.map TeardownEffect.closeLink
      ++ (match st.hostConnection with
          | some pid => [TeardownEffect.closeLink pid]
          | none => [])
  ({ st with
      connectionState := .disconnected
      signalingWs := none
      myPeerId := none
      lobbyCode := none
      lobbyInfo := none
      isHost := false
      guestToken := none
      peerConnections := []
      hostConnection := none
      connectedPeers := []
      gameStarted := false
      error := none }, effs)

/-- `suspendLobby` (src/unnamed/part_014 lines 430-489): send the suspend
signal if the control channel is open, close it, close every data link, and
partially reset — keeping `lobbyCode`, `lobbyInfo`, `isHost`, `myPeerId` and
`guestToken` for resume awareness. The cache save of the current game state
touches only `localStorage`, not this state slice. -/
def suspendLobby (st : MpState) : MpState × List TeardownEffect :=
  let effs :=
    (if st.signalingWs == some true then [TeardownEffect.sendSuspendSignal] else [])
      ++ (if st.signalingWs.isSome then [TeardownEffect.closeControl] else [])
      ++ st.peerConnections.map TeardownEffect.closeLink
      ++ (match st.hostConnection with
          | some pid => [TeardownEffect.closeLink pid]
          | none => [])
  ({ st with
      connectionState := .disconnected
      signalingWs := none
      peerConnections := []
      hostConnection := none
      connectedPeers := []
      gameStarted := false
      error := none }, effs)

/-- `leaveLobby` (src/unnamed/part_014 lines 491-504): a host with a current
session removes it from the cached lobby list, then `cleanup` runs. -/
def leaveLobby (currentSessionId : Option String) (st : MpState) : MpState × List TeardownEffect :=
  let st1 :=
    match currentSessionId with
    | some sid =>
        if st.isHost then { st with myLobbies := st.myLobbies.filter (fun l => l ≠ sid) } else st
    | none => st
  cleanup st1

/-- The give-up branch of `ws.onclose` (src/unnamed/part_014 lines 353-359)
taken when reconnect attempts are exhausted on an abnormal close: `cleanup`,
then set the connection-lost error. -/
def exhaustTeardown (st : MpState) : MpState × List TeardownEffect :=
  let c := cleanup st
  ({ c.1 with error := some "Connection lost" }, c.2)

/-! ### Reconnect policy (`ws.onclose` of `joinLobby`, src/unnamed/part_014) -/

/-- `MAX_RECONNECT_ATTEMPTS` (src/unnamed/part_014 line 105). -/
def MAX_RECONNECT_ATTEMPTS : Nat := 5

/-- Outcome of one `ws.onclose` event. -/
inductive ReconnectOutcome where
  | droppedCode
  | retry (delayMs : Nat) (rejoinCode : String)
  | gaveUp
deriving Repr, DecidableEq

/-- The `ws.onclose` handler of `joinLobby` (src/unnamed/part_014 lines
331-360), for the socket currently installed. `attempts` is the module-level
`reconnectAttempts` counter; the returned counter is its value after the
scheduled timeout fires (the timeout increments it just before re-issuing
`joinLobby(currentCode)`). -/
def onSignalingClose (closeCode : Int) (attempts : Nat) (st : MpState) :
    MpState × Nat × ReconnectOutcome :=
  match st.lobbyCode with
  | none =>
      ({ st with connectionState := .disconnected, signalingWs := none }, attempts, .droppedCode)
  | some currentCode =>
      if closeCode ≠ 1000 ∧ attempts < MAX_RECONNECT_ATTEMPTS then
        ({ st with connectionState := .reconnecting }, attempts + 1,
          .retry (min (1000 * 2 ^ attempts) 30000) currentCode)
      else
        let c := cleanup st
        ({ c.1 with error := if closeCode = 1000 then none else some "Connection lost" },
          attempts, .gaveUp)

/-! ## Signaling relay (src/unnamed/part_016, `LobbySession` Durable Object) -/

/-- `MAX_PEERS` (src/unnamed/part_016 line 35). -/
def MAX_PEERS : Nat := 6

/-- `SignalingLobbyState`: the stored lobby record `{lobbyCode, hostId, createdAt}`. -/
structure SignalingLobbyState where
  lobbyCode : String
  hostId : String
  createdAt : Int
deriving Repr, DecidableEq

/-- `PeerMeta` (src/unnamed/part_016 lines 15-20), attached to each accepted
WebSocket as a tag. -/
structure PeerMeta where
  odPeerId : String
  peerName : String
  peerPicture : Option String
  isHost : Bool
deriving Repr, DecidableEq

/-- Server-to-client signaling messages (`SignalingServerMessage`). SDP and
ICE payloads are opaque to the relay and embedded as `String`. -/
inductive ServerMsg where
  | JOINED (lobbyInfo : LobbyInfo) (yourId : String) (isHost : Bool) (hostId : String)
  | PEER_JOINED (odPeerId peerName : String) (peerPicture : Option String)
  | PEER_LEFT (odPeerId : String)
  | HOST_DISCONNECTED
  | HOST_SUSPENDED
  | LOBBY_CLOSED (reason : String)
  | OFFER_RECEIVED (fromId sdp : String)
  | ANSWER_RECEIVED (fromId sdp : String)
  | ICE_CANDIDATE_RECEIVED (fromId candidate : String)
  | PONG
  | ERROR (code message : String)
deriving Repr, DecidableEq

/-- Client-to-server signaling messages (`SignalingClientMessage`). -/
inductive ClientMsg where
  | PING
  | OFFER (targetId sdp : String)
  | ANSWER (targetId sdp : String)
  | ICE_CANDIDATE (targetId candidate : String)
  | HOST_SUSPEND
deriving Repr, DecidableEq

/-- Externally visible effects of a relay operation, in emission order. -/
inductive RelayEffect where
  | send (toPeer : String) (msg : ServerMsg)
  | closeWs (toPeer : String) (code : Int) (reason : String)
deriving Repr, DecidableEq

/-- The `LobbySession` instance state: the in-memory lobby record, the
`connections` map (insertion-ordered, keyed by `odPeerId`, holding each
socket's `PeerMeta` tag), the `hostSuspended` flag, and the durable-storage
copy of the lobby record. -/
structure RelayState where
  lobbyState : Option SignalingLobbyState
  connections : List (String × PeerMeta)
  hostSuspended : Bool
  storedLobbyState : Option SignalingLobbyState
deriving Repr, DecidableEq

/-- `Map.prototype.get`. -/
def mapGet {β : Type} (m : List (String × β)) (k : String) : Option β :=
  (m.find? (fun p => p.1 == k)).map (fun p => p.2)

/-- `Map.prototype.set`: updates an existing key in place, else appends. -/
def mapSet {β : Type} (m : List (String × β)) (k : String) (v : β) : List (String × β) :=
  if m.any (fun p => p.1 == k) then
    m.map (fun p => if p.1 == k then (k, v) else p)
  else
    m ++ [(k, v)]

/-- `Map.prototype.delete`. -/
def mapDelete {β : Type} (m : List (String × β)) (k : String) : List (String × β) :=
  m.filter (fun p => p.1 != k)

/-- `sendTo` (src/unnamed/part_016 lines 346-355): send only if the peer has
a connection in the map. -/
def sendTo (connections : List (String × PeerMeta)) (odPeerId : String) (message : ServerMsg) :
    List RelayEffect :=
  if (mapGet connections odPeerId).isSome then [.send odPeerId message] else []

/-- `broadcast` (src/unnamed/part_016 lines 335-344): send to every
connection, in map order. -/
def broadcastAll (connections : List (String × PeerMeta)) (message : ServerMsg) :
    List RelayEffect :=
  connections.map (fun p => .send p.1 message)

/-- `getLobbyInfo` (src/unnamed/part_016 lines 296-318). `meta?.peerName ||
'Guest'` falls back on an empty name. -/
def getLobbyInfo (ls : SignalingLobbyState) (connections : List (String × PeerMeta)) : LobbyInfo :=
  { lobbyCode := ls.lobbyCode
    hostId := ls.hostId
    createdAt := ls.createdAt
    peers := connections.map (fun p =>
      { odPeerId := p.1
        name := if p.2.peerName = "" then "Guest" else p.2.peerName
        picture := p.2.peerPicture
        isHost := p.1 == ls.hostId })
    peerCount := connections.length
    maxPeers := MAX_PEERS }

/-- Body of the `POST /init` request. -/
structure InitBody where
  lobbyCode : String
  hostId : String
deriving Repr, DecidableEq

/-- `handleInit` (src/unnamed/part_016 lines 79-94): unconditionally build a
new lobby record from the body and `Date.now()`, remember it in memory and in
durable storage, and answer `{success: true}`. -/
def handleInit (body : InitBody) (now : Int) (st : RelayState) : RelayState × Bool :=
  let ls : SignalingLobbyState :=
    { lobbyCode := body.lobbyCode, hostId := body.hostId, createdAt := now }
  ({ st with lobbyState := some ls, storedLobbyState := some ls }, true)

/-- The lazy load `this.lobbyState ??= await storage.get('lobbyState')`
performed by `handleGetInfo` and `handleWebSocket`. -/
def loadLobbyState (st : RelayState) : RelayState :=
  if st.lobbyState.isNone then { st with lobbyState := st.storedLobbyState } else st

/-- `handleGetInfo` (src/unnamed/part_016 lines 96-107): `none` models the
404 response. -/
def handleGetInfo (st : RelayState) : RelayState × Option LobbyInfo :=
  let st := loadLobbyState st
  match st.lobbyState with
  | none => (st, none)
  | some ls => (st, some (getLobbyInfo ls st.connections))

/-- Query parameters of a WebSocket upgrade request, as read by
`handleWebSocket`. The `role` parameter is parsed by the code but never used. -/
structure AttachRequest where
  odPeerId : Option String
  peerName : Option String := none
  peerPicture : Option String := none
deriving Repr, DecidableEq

/-- HTTP-level result of `handleWebSocket`. -/
inductive AttachResult where
  | missingPeerId
  | lobbyNotFound
  | lobbyFull
  | accepted (yourId : String) (isHost : Bool)
deriving Repr, DecidableEq

/-- `x || d` on an optional string (absent and `""` both fall back). -/
def jsOrStr (o : Option String) (d : String) : String :=
  match o with
  | some s => if s = "" then d else s
  | none => d

/-- `x || undefined` on an optional string (`""` becomes absent). -/
def jsOrUndefined (o : Option String) : Option String :=
  match o with
  | some s => if s = "" then none else some s
  | none => none

/-- `handleWebSocket` (src/unnamed/part_016 lines 109-190): the `attach`
operation. Reject without `odPeerId`, on an uninitialized lobby, or on a full
roster when the peer is not already a member; otherwise evict any prior
connection of the same peer id, install the new one, acknowledge it with
`SIGNALING_JOINED`, and, for a non-host, notify the host with
`SIGNALING_PEER_JOINED`. -/
def handleWebSocket (req : AttachRequest) (st : RelayState) :
    RelayState × List RelayEffect × AttachResult :=
  match req.odPeerId with
  | none => (st, [], .missingPeerId)
  | some odPeerId =>
    let peerName := jsOrStr req.peerName "Player"
    let peerPicture := jsOrUndefined req.peerPicture
    let st := loadLobbyState st
    match st.lobbyState with
    | none => (st, [], .lobbyNotFound)
    | some ls =>
      let existingConnection := mapGet st.connections odPeerId
      let currentPeerCount := st.connections.length
      if existingConnection.isNone ∧ currentPeerCount ≥ MAX_PEERS then
        (st, [], .lobbyFull)
      else
        let isHost := odPeerId == ls.hostId
        let meta : PeerMeta :=
          { odPeerId := odPeerId, peerName := peerName, peerPicture := peerPicture, isHost := isHost }
        let closeEffs :=
          if existingConnection.isSome then
            [RelayEffect.closeWs odPeerId 1000 "Reconnected from another session"]
          else []
        let connections := mapSet st.connections odPeerId meta
        let joinedEff :=
          [RelayEffect.send odPeerId (.JOINED (getLobbyInfo ls connections) odPeerId isHost ls.hostId)]
        let notifyEffs :=
          if !isHost ∧ (mapGet connections ls.hostId).isSome then
            sendTo connections ls.hostId (.PEER_JOINED odPeerId peerName peerPicture)
          else []
        ({ st with connections := connections },
          closeEffs ++ joinedEff ++ notifyEffs, .accepted odPeerId isHost)

/-- `handleMessage` (src/unnamed/part_016 lines 244-294). -/
def handleMessage (odPeerId : String) (msg : ClientMsg) (st : RelayState) :
    RelayState × List RelayEffect :=
  match st.lobbyState with
  | none => (st, [])
  | some ls =>
    match msg with
    | .PING => (st, sendTo st.connections odPeerId .PONG)
    | .OFFER targetId sdp =>
        (st, sendTo st.connections targetId (.OFFER_RECEIVED odPeerId sdp))
    | .ANSWER targetId sdp =>
        (st, sendTo st.connections targetId (.ANSWER_RECEIVED odPeerId sdp))
    | .ICE_CANDIDATE targetId candidate =>
        (st, sendTo st.connections targetId (.ICE_CANDIDATE_RECEIVED odPeerId candidate))
    | .HOST_SUSPEND =>
        if odPeerId == ls.hostId then
          ({ st with hostSuspended := true }, broadcastAll st.connections .HOST_SUSPENDED)
        else (st, [])

/-- `webSocketMessage` (src/unnamed/part_016 lines 192-206): a message
arriving on the socket tagged `wsPeerId`. Parsing and handling failures
(modelled by `raw = none`) answer the sender alone with a typed
`INVALID_MESSAGE` error. -/
def webSocketMessage (wsPeerId : Option String) (raw : Option ClientMsg) (st : RelayState) :
    RelayState × List RelayEffect :=
  match wsPeerId with
  | none => (st, [])
  | some odPeerId =>
    if st.lobbyState.isNone then (st, [])
    else
      match raw with
      | none =>
          (st, sendTo st.connections odPeerId (.ERROR "INVALID_MESSAGE" "Failed to process message"))
      | some msg => handleMessage odPeerId msg st

/-- `closeLobby` (src/unnamed/part_016 lines 320-333): close every remaining
connection, clear the map, drop the in-memory record and delete all storage. -/
def closeLobby (st : RelayState) : RelayState × List RelayEffect :=
  let effs := st.connections.map (fun p => RelayEffect.closeWs p.1 1000 "Lobby closed")
  ({ st with connections := [], lobbyState := none, storedLobbyState := none }, effs)

/-- `webSocketClose` (src/unnamed/part_016 lines 208-234): the `detach`
operation, for the socket tagged `wsPeerId`. -/
def webSocketClose (wsPeerId : Option String) (st : RelayState) : RelayState × List RelayEffect :=
  match wsPeerId with
  | none => (st, [])
  | some odPeerId =>
    let st1 := { st with connections := mapDelete st.connections odPeerId }
    match st1.lobbyState with
    | some ls =>
      if odPeerId == ls.hostId then
        if st1.hostSuspended then
          ({ st1 with hostSuspended := false }, [])
        else
          let broadcastEffs := broadcastAll st1.connections .HOST_DISCONNECTED
          let closed := closeLobby st1
          (closed.1, broadcastEffs ++ closed.2)
      else
        (st1, sendTo st1.connections ls.hostId (.PEER_LEFT odPeerId))
    | none => (st1, [])

/-! ### HTTP routing of the Durable Object (`LobbySession.fetch`) -/

/-- HTTP request methods seen by the relay. -/
inductive HttpMethod where
  | GET
  | POST
  | PUT
  | DELETE
deriving Repr, DecidableEq, BEq

/-- The parts of an HTTP request inspected by `LobbySession.fetch`. -/
structure HttpRequest where
  method : HttpMethod
  path : String
  upgradeHeader : Option String := none
  attach : AttachRequest := { odPeerId := none }
  initBody : InitBody := { lobbyCode := "", hostId := "" }
deriving Repr, DecidableEq

/-- JS `String.prototype.endsWith`, embedded over the character list (the
builtin `String.endsWith` is opaque to the kernel). -/
def strEndsWith (s post : String) : Bool := post.data.isSuffixOf s.data

/-- Responses of `LobbySession.fetch`. -/
inductive RelayResponse where
  | websocket (r : AttachResult)
  | initSuccess
  | infoResult (info : Option LobbyInfo)
  | notFound404
deriving Repr, DecidableEq

/-- `LobbySession.fetch` (src/unnamed/part_016 lines 59-77): route WebSocket
upgrades to `handleWebSocket`, `POST *\x2finit` to `handleInit`,
`GET *\x2finfo` to `handleGetInfo`, everything else to a 404. -/
def LobbySession.fetch (req : HttpRequest) (now : Int) (st : RelayState) :
    RelayState × List RelayEffect × RelayResponse :=
  if req.upgradeHeader == some "websocket" then
    let r := handleWebSocket req.attach st
    (r.1, r.2.1, .websocket r.2.2)
  else if strEndsWith req.path "/init" && req.method == HttpMethod.POST then
    let r := handleInit req.initBody now st
    (r.1, [], .initSuccess)
  else if strEndsWith req.path "/info" && req.method == HttpMethod.GET then
    let r := handleGetInfo st
    (r.1, [], .infoResult r.2)
  else
    (st, [], .notFound404)

/-! ### Relay event sequences -/

/-- The roster keys: the peer ids currently holding a connection. -/
def relayKeys (st : RelayState) : List String := st.connections.map Prod.fst

/-- One externally-driven event of the relay instance: an attach
(`handleWebSocket`), a detach (`webSocketClose`), or an inbound frame
(`webSocketMessage`). -/
inductive RelayEvent where
  | attach (req : AttachRequest)
  | detach (wsPeerId : Option String)
  | message (wsPeerId : Option String) (raw : Option ClientMsg)
deriving Repr, DecidableEq

/-- The state transition of one relay event. -/
def relayStep (st : RelayState) : RelayEvent → RelayState
  | .attach req => (handleWebSocket req st).1
  | .detach pid => (webSocketClose pid st).1
  | .message pid raw => (webSocketMessage pid raw st).1

/-- The relay state after a sequence of events. -/
def relayRun (st : RelayState) (evs : List RelayEvent) : RelayState :=
  evs.foldl relayStep st

/-! ## Concrete fixtures for witnesses and counterexamples -/

/-- A sample player with the default counter set. -/
def samplePlayer (pid : String) (active : Int) : Player :=
  { id := pid
    name := "Player " ++ pid
    theme := { primaryColor := "#ffffff", backgroundColor := "#1F1F1F" }
    counters := getDefaultCounters 40
    commanderDamage := []
    activeCounterIndex := active
    enabledSecondaryCounters := [] }

/-- The default settings of the store. -/
def sampleSettings : GameSettings := { startingLife := 40, allowSleep := false, playerCount := 2 }

/-- An inactive highroll mode. -/
def idleHighroll : HighrollModeState := { isActive := false, results := [], startTimestamp := none }

/-- An inactive commander attack mode. -/
def idleAttack : CommanderAttackModeState :=
  { isActive := false, attackingPlayerId := none, attackerRotation := 0 }

/-- A sample two-player game state. -/
def sampleGameState : GameState :=
  { players := [samplePlayer "p1" 0, samplePlayer "p2" 0]
    settings := sampleSettings
    highrollMode := idleHighroll
    commanderAttackMode := idleAttack }

/-- A game state with no locally tracked players. -/
def emptyGameState : GameState := { sampleGameState with players := [] }

/-- A connected host with two open client channels and one still-negotiating one. -/
def sampleHostEnv : HostEnv :=
  { isHost := true
    connectionState := .connected
    lobbyCode := some "ABC234"
    gameStarted := true
    channels := [{ odPeerId := "c1", dcOpen := true }, { odPeerId := "c2", dcOpen := true },
                 { odPeerId := "c3", dcOpen := false }] }

/-- A short host-side action workload. -/
def sampleEvents : List (Int × GameAction) :=
  [(1, GameAction.UPDATE_COUNTER "p1" "life" (-3))]

/-- Metadata of an attached peer. -/
def sampleMeta (pid : String) (h : Bool) : PeerMeta :=
  { odPeerId := pid, peerName := "Player " ++ pid, peerPicture := none, isHost := h }

/-- A sample lobby record. -/
def sampleLobby : SignalingLobbyState := { lobbyCode := "ABC234", hostId := "h1", createdAt := 100 }

/-- A relay at full capacity: the host plus five clients. -/
def fullRelayState : RelayState :=
  { lobbyState := some sampleLobby
    connections :=
      [("h1", sampleMeta "h1" true), ("c1", sampleMeta "c1" false), ("c2", sampleMeta "c2" false),
       ("c3", sampleMeta "c3" false), ("c4", sampleMeta "c4" false), ("c5", sampleMeta "c5" false)]
    hostSuspended := false
    storedLobbyState := some sampleLobby }

/-- A relay whose host has signalled suspend, with the host and one client
still attached. -/
def suspendedRelayState : RelayState :=
  { lobbyState := some sampleLobby
    connections := [("h1", sampleMeta "h1" true), ("c1", sampleMeta "c1" false)]
    hostSuspended := true
    storedLobbyState := some sampleLobby }

/-- An uninitialized relay. -/
def emptyRelayState : RelayState :=
  { lobbyState := none, connections := [], hostSuspended := false, storedLobbyState := none }

/-- First and second `POST /init` bodies for the same code. -/
def initBody1 : InitBody := { lobbyCode := "ABC234", hostId := "h1" }

/-- See `initBody1`. -/
def initBody2 : InitBody := { lobbyCode := "ABC234", hostId := "h2" }

/-- The relay after a first init. -/
def onceInitState : RelayState := (handleInit initBody1 100 emptyRelayState).1

/-- A connected multiplayer-store state on the host device. -/
def sampleMpState : MpState :=
  { connectionState := .connected
    signalingWs := some true
    myPeerId := some "h1"
    lobbyCode := some "ABC234"
    lobbyInfo := none
    isHost := true
    guestToken := none
    peerConnections := ["c1"]
    hostConnection := none
    connectedPeers := []
    gameStarted := true
    error := none
    myLobbies := ["sess1"] }

/-- The `POST /close` request the lobby-creation route sends to a previous
lobby's Durable Object (src/unnamed in the worker entry, `/api/lobby/create`). -/
def closeRequest : HttpRequest :=
  { method := .POST, path := "/close", upgradeHeader := none }

/-! ## Theorems -/

/-- Deleting a key from a JS map removes its entry. -/
theorem mapGet_mapDelete_self {β : Type} (m : List (String × β)) (k : String) :
    mapGet (mapDelete m k) k = none := by
  induction m with
  | nil => rfl
  | cons p rest ih =>
      by_cases h : p.1 == k
      · simpa [mapDelete, List.filter_cons, bne, h] using ih
      · simpa [mapDelete, List.filter_cons, bne, h, mapGet, List.find?_cons] using ih

/-- C10: the relay's HTTP handler accepts only WebSocket upgrades, `POST`
requests ending in `/init` and `GET` requests ending in `/info`; every other
request — in particular the `POST /close` sent by the lobby-creation route —
returns 404 with the relay state unchanged, no connection closed and no
message sent to any member. -/
theorem C10_fetch_other_requests_404 (req : HttpRequest) (now : Int) (st : RelayState)
    (hup : (req.upgradeHeader == some "websocket") = false)
    (hinit : (strEndsWith req.path "/init" && req.method == HttpMethod.POST) = false)
    (hinfo : (strEndsWith req.path "/info" && req.method == HttpMethod.GET) = false) :
    LobbySession.fetch req now st = (st, [], RelayResponse.notFound404) := by
  simp [LobbySession.fetch, hup, hinit, hinfo]

/-- C10 witness: the concrete `POST /close` request against a live lobby is
answered 404, leaving the lobby untouched. -/
theorem C10_witness :
    (closeRequest.upgradeHeader == some "websocket") = false ∧
    (strEndsWith closeRequest.path "/init" && closeRequest.method == HttpMethod.POST) = false ∧
    (strEndsWith closeRequest.path "/info" && closeRequest.method == HttpMethod.GET) = false ∧
    LobbySession.fetch closeRequest 500 fullRelayState =
      (fullRelayState, [], RelayResponse.notFound404) :=
  ⟨by decide, by decide, by decide,
    C10_fetch_other_requests_404 closeRequest 500 fullRelayState (by decide) (by decide) (by decide)⟩

/-- C7 counterexample: a second `init` for an already-initialized code
succeeds and replaces the lobby record, contradicting "fails rather than
succeeding, leaving the existing lobby record unchanged". -/
theorem C7_counterexample :
    (handleInit initBody2 200 onceInitState).2 = true ∧
    (handleInit initBody2 200 onceInitState).1.lobbyState ≠ onceInitState.lobbyState := by
  decide

/-- C7 amended: `init` is not one-time: a repeated `init` for an
already-initialized code succeeds and overwrites the lobby record with the
new host identity and a fresh `createdAt`, leaving the connection roster and
the suspended flag unchanged. -/
theorem C7_amended_reinit_overwrites (st : RelayState) (body : InitBody) (now : Int)
    (ls : SignalingLobbyState) (hprev : st.lobbyState = some ls) :
    (handleInit body now st).2 = true ∧
    (handleInit body now st).1.lobbyState =
      some { lobbyCode := body.lobbyCode, hostId := body.hostId, createdAt := now } ∧
    (handleInit body now st).1.connections = st.connections ∧
    (handleInit body now st).1.hostSuspended = st.hostSuspended := by
  refine ⟨rfl, rfl, rfl, rfl⟩

/-- C7 amended witness: the second init on the concrete once-initialized
relay. -/
theorem C7_amended_witness :
    onceInitState.lobbyState = some sampleLobby ∧
    ((handleInit initBody2 200 onceInitState).2 = true ∧
      (handleInit initBody2 200 onceInitState).1.lobbyState =
        some { lobbyCode := initBody2.lobbyCode, hostId := initBody2.hostId, createdAt := 200 } ∧
      (handleInit initBody2 200 onceInitState).1.connections = onceInitState.connections ∧
      (handleInit initBody2 200 onceInitState).1.hostSuspended = onceInitState.hostSuspended) :=
  ⟨by decide, C7_amended_reinit_overwrites onceInitState initBody2 200 sampleLobby (by decide)⟩

/-- C8: a malformed message from an attached member of an initialized lobby
yields exactly one effect — a typed `INVALID_MESSAGE` error sent back to that
member — and the relay state (lobby record, roster, suspended flag) is
unchanged. -/
theorem C8_invalid_message_only_sender (st : RelayState) (sender : String) (m : PeerMeta)
    (hls : st.lobbyState.isSome = true)
    (hmem : mapGet st.connections sender = some m) :
    webSocketMessage (some sender) none st =
      (st, [RelayEffect.send sender (ServerMsg.ERROR "INVALID_MESSAGE" "Failed to process message")]) := by
  have hnone : st.lobbyState.isNone = false := by
    cases h : st.lobbyState with
    | none => rw [h] at hls; simp at hls
    | some ls => simp [h]
  simp [webSocketMessage, hnone, sendTo, hmem]

/-- C8 witness: a malformed frame from client `c1` of the full lobby. -/
theorem C8_witness :
    fullRelayState.lobbyState.isSome = true ∧
    mapGet fullRelayState.connections "c1" = some (sampleMeta "c1" false) ∧
    webSocketMessage (some "c1") none fullRelayState =
      (fullRelayState,
        [RelayEffect.send "c1" (ServerMsg.ERROR "INVALID_MESSAGE" "Failed to process message")]) :=
  ⟨by decide, by decide,
    C8_invalid_message_only_sender fullRelayState "c1" (sampleMeta "c1" false) (by decide) (by decide)⟩

/-- C5: an attach by a peer id that is not already a member of a lobby whose
roster is at the capacity of `MAX_PEERS = 6` is rejected with the full error;
the state is unchanged — no connection added, none closed — and no `JOINED`
or `PEER_JOINED` message is emitted. -/
theorem C5_full_lobby_rejects (st : RelayState) (ls : SignalingLobbyState) (req : AttachRequest)
    (p : String)
    (hpeer : req.odPeerId = some p)
    (hls : st.lobbyState = some ls)
    (hnotmem : mapGet st.connections p = none)
    (hfull : st.connections.length ≥ MAX_PEERS) :
    handleWebSocket req st = (st, [], AttachResult.lobbyFull) := by
  have hload : loadLobbyState st = st := by
    simp [loadLobbyState, hls]
  simp only [handleWebSocket, hpeer, hload, hls]
  rw [if_pos]
  exact ⟨by simp [hnotmem], hfull⟩

/-- C5 witness: a seventh, unknown peer attaching to the full lobby. -/
theorem C5_witness :
    ({ odPeerId := some "c6" : AttachRequest }.odPeerId = some "c6") ∧
    fullRelayState.lobbyState = some sampleLobby ∧
    mapGet fullRelayState.connections "c6" = none ∧
    fullRelayState.connections.length ≥ MAX_PEERS ∧
    handleWebSocket { odPeerId := some "c6" } fullRelayState =
      (fullRelayState, [], AttachResult.lobbyFull) :=
  ⟨rfl, rfl, by decide, by decide,
    C5_full_lobby_rejects fullRelayState sampleLobby { odPeerId := some "c6" } "c6"
      rfl rfl (by decide) (by decide)⟩

/-- C9 counterexample: suspending and leaving do NOT produce the same local
multiplayer state — `suspendLobby` keeps the lobby code for resume awareness
while `leaveLobby`'s `cleanup` clears it. -/
theorem C9_counterexample :
    (suspendLobby sampleMpState).1 ≠ (leaveLobby (some "sess1") sampleMpState).1 ∧
    (suspendLobby sampleMpState).1.lobbyCode = some "ABC234" ∧
    (leaveLobby (some "sess1") sampleMpState).1.lobbyCode = none := by
  decide

/-- `cleanup` emits the control-channel close (when a socket is present) and
a close for every tracked peer data link, the host link included. -/
theorem cleanup_effects_close (st : MpState) :
    (st.signalingWs.isSome = true → TeardownEffect.closeControl ∈ (cleanup st).2) ∧
    (∀ p ∈ st.peerConnections, TeardownEffect.closeLink p ∈ (cleanup st).2) ∧
    (∀ p, st.hostConnection = some p → TeardownEffect.closeLink p ∈ (cleanup st).2) := by
  refine ⟨?_, ?_, ?_⟩
  · intro h
    simp [cleanup, h, List.mem_append]
  · intro p hp
    have hm : TeardownEffect.closeLink p ∈ st.peerConnections.map TeardownEffect.closeLink :=
      List.mem_map_of_mem _ hp
    simp [cleanup, List.mem_append, hm]
  · intro p hp
    simp [cleanup, hp, List.mem_append]

/-- `suspendLobby` likewise emits the control-channel close and a close for
every tracked peer data link. -/
theorem suspendLobby_effects_close (st : MpState) :
    (st.signalingWs.isSome = true → TeardownEffect.closeControl ∈ (suspendLobby st).2) ∧
    (∀ p ∈ st.peerConnections, TeardownEffect.closeLink p ∈ (suspendLobby st).2) ∧
    (∀ p, st.hostConnection = some p → TeardownEffect.closeLink p ∈ (suspendLobby st).2) := by
  refine ⟨?_, ?_, ?_⟩
  · intro h
    simp [suspendLobby, h, List.mem_append]
  · intro p hp
    have hm : TeardownEffect.closeLink p ∈ st.peerConnections.map TeardownEffect.closeLink :=
      List.mem_map_of_mem _ hp
    simp [suspendLobby, List.mem_append, hm]
  · intro p hp
    simp [suspendLobby, hp, List.mem_append]

/-- `leaveLobby` emits exactly `cleanup`'s teardown effects (the cache removal
touches only `myLobbies`). -/
theorem leaveLobby_snd (csid : Option String) (st : MpState) :
    (leaveLobby csid st).2 = (cleanup st).2 := by
  cases csid with
  | none => rfl
  | some sid =>
      by_cases h : st.isHost
      · simp [leaveLobby, cleanup, h]
      · simp [leaveLobby, cleanup, h]

/-- C9 amended: leaving, suspending and exhausting reconnect attempts each
run an idempotent teardown that closes the control channel, closes every peer
data link and resets the connection bookkeeping (state `disconnected`, no
socket, empty peer maps, `gameStarted` off); the emitted teardown effects of
the first run contain the control-channel close whenever a socket is present
and a close for every tracked data link, and a second run changes nothing and
closes nothing. They differ in scope: suspend preserves `lobbyCode`,
`lobbyInfo`, `isHost`, `myPeerId` and `guestToken` for a later resume, leave
clears them via `cleanup`, and the exhaustion path additionally records the
connection-lost error while leave leaves no error. -/
theorem C9_amended_teardown_paths (st : MpState) (csid : Option String) :
    ((suspendLobby st).1.connectionState = .disconnected ∧
      (suspendLobby st).1.signalingWs = none ∧
      (suspendLobby st).1.peerConnections = [] ∧
      (suspendLobby st).1.hostConnection = none ∧
      (suspendLobby st).1.connectedPeers = [] ∧
      (suspendLobby st).1.gameStarted = false) ∧
    ((leaveLobby csid st).1.connectionState = .disconnected ∧
      (leaveLobby csid st).1.signalingWs = none ∧
      (leaveLobby csid st).1.peerConnections = [] ∧
      (leaveLobby csid st).1.hostConnection = none ∧
      (leaveLobby csid st).1.connectedPeers = [] ∧
      (leaveLobby csid st).1.gameStarted = false) ∧
    ((exhaustTeardown st).1.connectionState = .disconnected ∧
      (exhaustTeardown st).1.signalingWs = none ∧
      (exhaustTeardown st).1.peerConnections = [] ∧
      (exhaustTeardown st).1.hostConnection = none ∧
      (exhaustTeardown st).1.connectedPeers = [] ∧
      (exhaustTeardown st).1.gameStarted = false) ∧
    (suspendLobby (suspendLobby st).1 = ((suspendLobby st).1, [])) ∧
    (leaveLobby csid (leaveLobby csid st).1 = ((leaveLobby csid st).1, [])) ∧
    (exhaustTeardown (exhaustTeardown st).1 = ((exhaustTeardown st).1, [])) ∧
    ((suspendLobby st).1.lobbyCode = st.lobbyCode ∧
      (suspendLobby st).1.lobbyInfo = st.lobbyInfo ∧
      (suspendLobby st).1.isHost = st.isHost ∧
      (suspendLobby st).1.myPeerId = st.myPeerId ∧
      (suspendLobby st).1.guestToken = st.guestToken) ∧
    ((leaveLobby csid st).1.lobbyCode = none ∧
      (leaveLobby csid st).1.isHost = false) ∧
    ((exhaustTeardown st).1.error = some "Connection lost" ∧
      (leaveLobby csid st).1.error = none) ∧
    ((st.signalingWs.isSome = true → TeardownEffect.closeControl ∈ (suspendLobby st).2) ∧
      (∀ p ∈ st.peerConnections, TeardownEffect.closeLink p ∈ (suspendLobby st).2) ∧
      (∀ p, st.hostConnection = some p → TeardownEffect.closeLink p ∈ (suspendLobby st).2)) ∧
    ((st.signalingWs.isSome = true → TeardownEffect.closeControl ∈ (leaveLobby csid st).2) ∧
      (∀ p ∈ st.peerConnections, TeardownEffect.closeLink p ∈ (leaveLobby csid st).2) ∧
      (∀ p, st.hostConnection = some p → TeardownEffect.closeLink p ∈ (leaveLobby csid st).2)) ∧
    ((st.signalingWs.isSome = true → TeardownEffect.closeControl ∈ (exhaustTeardown st).2) ∧
      (∀ p ∈ st.peerConnections, TeardownEffect.closeLink p ∈ (exhaustTeardown st).2) ∧
      (∀ p, st.hostConnection = some p → TeardownEffect.closeLink p ∈ (exhaustTeardown st).2)) := by
  refine ⟨?_, ?_, ?_, ?_, ?_, ?_, ?_, ?_, ?_,
    suspendLobby_effects_close st, ?_, cleanup_effects_close st⟩
  · exact ⟨rfl, rfl, rfl, rfl, rfl, rfl⟩
  · exact ⟨rfl, rfl, rfl, rfl, rfl, rfl⟩
  · exact ⟨rfl, rfl, rfl, rfl, rfl, rfl⟩
  · cases st
    rfl
  · cases st
    cases csid <;> rfl
  · cases st
    rfl
  · exact ⟨rfl, rfl, rfl, rfl, rfl⟩
  · exact ⟨rfl, rfl⟩
  · exact ⟨rfl, rfl⟩
  · simp only [leaveLobby_snd]
    exact cleanup_effects_close st

/-- C9 amended witness: the connected sample host state — each path's first
run closes its control channel and its `c1` data link, and a second suspend
run is a no-op. -/
theorem C9_amended_witness :
    sampleMpState.signalingWs.isSome = true ∧
    "c1" ∈ sampleMpState.peerConnections ∧
    TeardownEffect.closeControl ∈ (suspendLobby sampleMpState).2 ∧
    TeardownEffect.closeLink "c1" ∈ (leaveLobby (some "sess1") sampleMpState).2 ∧
    TeardownEffect.closeControl ∈ (exhaustTeardown sampleMpState).2 ∧
    suspendLobby (suspendLobby sampleMpState).1 = ((suspendLobby sampleMpState).1, []) := by
  obtain ⟨-, -, -, h4, -, -, -, -, -, hs, hl, he⟩ :=
    C9_amended_teardown_paths sampleMpState (some "sess1")
  exact ⟨by decide, by decide, hs.1 (by decide), hl.2.1 "c1" (by decide), he.1 (by decide), h4⟩

/-- C4: while a lobby code is known, each abnormal close (code ≠ 1000) with
fewer than `MAX_RECONNECT_ATTEMPTS = 5` spent attempts moves the state to
`reconnecting` and schedules a retry of the same join request after
`min(1000·2^attempts, 30000)` ms — the delays for attempts 0..4 being 1s, 2s,
4s, 8s, 16s — and once the 5 attempts are exhausted, the next abnormal close
runs the `cleanup` teardown, leaving the state `disconnected` with the
connection-lost error set. -/
theorem C4_reconnect_backoff (st : MpState) (code : String) (closeCode : Int)
    (hcode : st.lobbyCode = some code) (habn : closeCode ≠ 1000) :
    (∀ k, k < MAX_RECONNECT_ATTEMPTS →
      onSignalingClose closeCode k st =
        ({ st with connectionState := .reconnecting }, k + 1,
          ReconnectOutcome.retry (min (1000 * 2 ^ k) 30000) code)) ∧
    ((List.range MAX_RECONNECT_ATTEMPTS).map (fun k => min (1000 * 2 ^ k) 30000) =
      [1000, 2000, 4000, 8000, 16000]) ∧
    (onSignalingClose closeCode MAX_RECONNECT_ATTEMPTS st =
      ({ (cleanup st).1 with error := some "Connection lost" },
        MAX_RECONNECT_ATTEMPTS, ReconnectOutcome.gaveUp)) ∧
    ((cleanup st).1.connectionState = .disconnected) := by
  refine ⟨?_, by decide, ?_, rfl⟩
  · intro k hk
    simp only [onSignalingClose, hcode]
    rw [if_pos ⟨habn, hk⟩]
  · simp only [onSignalingClose, hcode]
    rw [if_neg (by simp [MAX_RECONNECT_ATTEMPTS])]
    rw [if_neg habn]

/-- C4 witness: a connected client state with code `ABC234` and an abnormal
close code 1006. -/
theorem C4_witness :
    sampleMpState.lobbyCode = some "ABC234" ∧ (1006 : Int) ≠ 1000 ∧
    ((∀ k, k < MAX_RECONNECT_ATTEMPTS →
      onSignalingClose 1006 k sampleMpState =
        ({ sampleMpState with connectionState := .reconnecting }, k + 1,
          ReconnectOutcome.retry (min (1000 * 2 ^ k) 30000) "ABC234")) ∧
    ((List.range MAX_RECONNECT_ATTEMPTS).map (fun k => min (1000 * 2 ^ k) 30000) =
      [1000, 2000, 4000, 8000, 16000]) ∧
    (onSignalingClose 1006 MAX_RECONNECT_ATTEMPTS sampleMpState =
      ({ (cleanup sampleMpState).1 with error := some "Connection lost" },
        MAX_RECONNECT_ATTEMPTS, ReconnectOutcome.gaveUp)) ∧
    ((cleanup sampleMpState).1.connectionState = .disconnected)) :=
  ⟨rfl, by decide, C4_reconnect_backoff sampleMpState "ABC234" 1006 rfl (by decide)⟩

/-- C3 counterexample: when a suspended host's channel closes while a client
is still attached, the lobby record is kept but the member count is NOT
zero — the remaining client connection stays in the roster. -/
theorem C3_counterexample :
    (webSocketClose (some "h1") suspendedRelayState).1.lobbyState = some sampleLobby ∧
    (webSocketClose (some "h1") suspendedRelayState).1.connections ≠ [] := by
  decide

/-- C3 amended: when the host's control channel closes, if no prior suspend
signal was sent the relay broadcasts `HOST_DISCONNECTED` to all remaining
members and tears the lobby down (every remaining connection closed, state
and storage deleted); if the host had suspended, the lobby record is kept,
only the host's connection is removed (remaining members stay attached), the
suspend flag is reset, and a later attach by the same host identity is
accepted again as host (given room in the roster). -/
theorem C3_amended_host_close (st : RelayState) (ls : SignalingLobbyState)
    (hls : st.lobbyState = some ls) :
    (st.hostSuspended = false →
      webSocketClose (some ls.hostId) st =
        ({ st with connections := [], lobbyState := none, storedLobbyState := none },
          broadcastAll (mapDelete st.connections ls.hostId) ServerMsg.HOST_DISCONNECTED ++
            (mapDelete st.connections ls.hostId).map
              (fun p => RelayEffect.closeWs p.1 1000 "Lobby closed"))) ∧
    (st.hostSuspended = true →
      webSocketClose (some ls.hostId) st =
        ({ st with connections := mapDelete st.connections ls.hostId, hostSuspended := false },
          [])) ∧
    (st.hostSuspended = true →
      (mapDelete st.connections ls.hostId).length < MAX_PEERS →
      (handleWebSocket { odPeerId := some ls.hostId }
          (webSocketClose (some ls.hostId) st).1).2.2 =
        AttachResult.accepted ls.hostId true) := by
  refine ⟨?_, ?_, ?_⟩
  · intro hsus
    simp [webSocketClose, hls, hsus, closeLobby]
  · intro hsus
    simp [webSocketClose, hls, hsus]
  · intro hsus hroom
    have hclose : (webSocketClose (some ls.hostId) st).1 =
        { st with connections := mapDelete st.connections ls.hostId, hostSuspended := false } := by
      simp [webSocketClose, hls, hsus]
    rw [hclose]
    simp only [handleWebSocket, loadLobbyState, hls, mapGet_mapDelete_self]
    rw [if_neg (by simp [hls])]
    simp only [hls]
    rw [if_neg ?_]
    · simp
    · intro hcontr
      exact absurd hcontr.2 (by simpa using Nat.not_le_of_lt hroom)

/-- C3 amended witness: the suspended two-member lobby; both branches of the
amended statement at the concrete state, with the host reattach accepted. -/
theorem C3_amended_witness :
    suspendedRelayState.lobbyState = some sampleLobby ∧
    ((suspendedRelayState.hostSuspended = false →
      webSocketClose (some sampleLobby.hostId) suspendedRelayState =
        ({ suspendedRelayState with connections := [], lobbyState := none, storedLobbyState := none },
          broadcastAll (mapDelete suspendedRelayState.connections sampleLobby.hostId)
              ServerMsg.HOST_DISCONNECTED ++
            (mapDelete suspendedRelayState.connections sampleLobby.hostId).map
              (fun p => RelayEffect.closeWs p.1 1000 "Lobby closed"))) ∧
    (suspendedRelayState.hostSuspended = true →
      webSocketClose (some sampleLobby.hostId) suspendedRelayState =
        ({ suspendedRelayState with
            connections := mapDelete suspendedRelayState.connections sampleLobby.hostId,
            hostSuspended := false },
          [])) ∧
    (suspendedRelayState.hostSuspended = true →
      (mapDelete suspendedRelayState.connections sampleLobby.hostId).length < MAX_PEERS →
      (handleWebSocket { odPeerId := some sampleLobby.hostId }
          (webSocketClose (some sampleLobby.hostId) suspendedRelayState).1).2.2 =
        AttachResult.accepted sampleLobby.hostId true)) :=
  ⟨rfl, C3_amended_host_close suspendedRelayState sampleLobby rfl⟩

/-- C2 counterexample: an incoming player entry with no matching local id is
NOT taken as-is — with no locally tracked players, its device-local
`activeCounterIndex` (here 1) is overwritten with 0 by the merge. -/
theorem C2_counterexample :
    (applyRemoteState emptyGameState [samplePlayer "px" 1] sampleSettings none).players ≠
      [samplePlayer "px" 1] := by
  decide

/-- C2 amended: `applyRemoteState` yields a mirror of the incoming snapshot
that is entry-by-entry equal to it except for the device-local
`activeCounterIndex`, and takes the incoming settings wholesale; the merged
`activeCounterIndex` comes from the first local player with the same id, or —
unlike the claim's "taken as-is" — falls back to the local player at the same
position, and to 0 when neither exists. -/
theorem C2_amended_merge (st : GameState) (players : List Player) (settings : GameSettings)
    (hm : Option HighrollModeState) (i : Nat) (p : Player)
    (hp : players.get? i = some p) :
    (applyRemoteState st players settings hm).settings = settings ∧
    (applyRemoteState st players settings hm).players.length = players.length ∧
    ∃ mp, (applyRemoteState st players settings hm).players.get? i = some mp ∧
      Player.eqExceptActive mp p ∧
      (∀ q, st.players.find? (fun r => r.id == p.id) = some q →
        mp.activeCounterIndex = q.activeCounterIndex) ∧
      (st.players.find? (fun r => r.id == p.id) = none →
        ∀ q, st.players.get? i = some q → mp.activeCounterIndex = q.activeCounterIndex) ∧
      (st.players.find? (fun r => r.id == p.id) = none → st.players.get? i = none →
        mp.activeCounterIndex = 0) := by
  have hp2 : players[i]? = some p := by
    simpa [List.get?_eq_getElem?] using hp
  refine ⟨rfl, by simp [applyRemoteState], ?_⟩
  have hmerged : (applyRemoteState st players settings hm).players.get? i =
      some (let localPlayer :=
              match st.players.find? (fun q => q.id == p.id) with
              | some q => some q
              | none => st.players.get? i
            let localActive := (localPlayer.map (fun q => q.activeCounterIndex)).getD 0
            { p with activeCounterIndex := localActive }) := by
    simp [applyRemoteState, List.get?_eq_getElem?, List.getElem?_map, List.getElem?_enum, hp2]
  refine ⟨_, hmerged, ⟨rfl, rfl, rfl, rfl, rfl, rfl⟩, ?_, ?_, ?_⟩
  · intro q hq
    simp [hq]
  · intro hq q hloc
    simp only [List.get?_eq_getElem?] at hloc
    simp [hq, hloc]
  · intro hq hloc
    simp only [List.get?_eq_getElem?] at hloc
    simp [hq, hloc]

/-- C2 amended witness: merging a snapshot of player `p2` into the sample
local state, where `p2` is tracked locally. -/
theorem C2_amended_witness :
    ([samplePlayer "p2" 7].get? 0 = some (samplePlayer "p2" 7)) ∧
    ((applyRemoteState sampleGameState [samplePlayer "p2" 7] sampleSettings none).settings =
        sampleSettings ∧
      (applyRemoteState sampleGameState [samplePlayer "p2" 7] sampleSettings none).players.length =
        [samplePlayer "p2" 7].length ∧
      ∃ mp,
        (applyRemoteState sampleGameState [samplePlayer "p2" 7] sampleSettings none).players.get? 0 =
          some mp ∧
        Player.eqExceptActive mp (samplePlayer "p2" 7) ∧
        (∀ q, sampleGameState.players.find? (fun r => r.id == (samplePlayer "p2" 7).id) = some q →
          mp.activeCounterIndex = q.activeCounterIndex) ∧
        (sampleGameState.players.find? (fun r => r.id == (samplePlayer "p2" 7).id) = none →
          ∀ q, sampleGameState.players.get? 0 = some q →
            mp.activeCounterIndex = q.activeCounterIndex) ∧
        (sampleGameState.players.find? (fun r => r.id == (samplePlayer "p2" 7).id) = none →
          sampleGameState.players.get? 0 = none → mp.activeCounterIndex = 0)) :=
  ⟨rfl, C2_amended_merge sampleGameState [samplePlayer "p2" 7] sampleSettings none 0
    (samplePlayer "p2" 7) rfl⟩

/-- The final store state of a host action run is the left fold of
`applyGameAction` over the events. -/
theorem hostRunActions_fst (e : HostEnv) (g : GameState) (evs : List (Int × GameAction)) :
    (hostRunActions e g evs).1 = evs.foldl (fun s (ta : Int × GameAction) => applyGameAction ta.1 ta.2 s) g := by
  induction evs generalizing g with
  | nil => rfl
  | cons ev rest ih =>
      obtain ⟨t, a⟩ := ev
      simp [hostRunActions, applyGameActionHost, ih]

/-- The broadcast trace of a run splits along list append. -/
theorem hostRunActions_snd_append (e : HostEnv) (g : GameState)
    (xs ys : List (Int × GameAction)) :
    (hostRunActions e g (xs ++ ys)).2 =
      (hostRunActions e g xs).2 ++ (hostRunActions e (hostRunActions e g xs).1 ys).2 := by
  induction xs generalizing g with
  | nil => rfl
  | cons ev rest ih =>
      obtain ⟨t, a⟩ := ev
      simp [hostRunActions, ih]

/-- C1: a connected host applies every received `P2P_ACTION` to the store and
then fans a fresh `P2P_STATE_SYNC` out to every currently-open client data
channel (the sender's included); after any sequence of actions ending in
`(t, a)`, the final store state is the fold of `applyGameAction` over the
whole sequence in order, and the last broadcast delivers exactly the snapshot
of that folded state to every open channel. -/
theorem C1_host_action_fanout (e : HostEnv) (g : GameState)
    (pre : List (Int × GameAction)) (t : Int) (a : GameAction)
    (hHost : e.isHost = true) (hMp : isMultiplayer e = true) :
    (hostRunActions e g (pre ++ [(t, a)])).1 =
      (pre ++ [(t, a)]).foldl (fun s (ta : Int × GameAction) => applyGameAction ta.1 ta.2 s) g ∧
    (hostRunActions e g (pre ++ [(t, a)])).2.getLast? =
      some ((e.channels.filter (fun c => c.dcOpen)).map (fun c =>
        (c.odPeerId,
          stateSyncMessage
            ((pre ++ [(t, a)]).foldl (fun s (ta : Int × GameAction) => applyGameAction ta.1 ta.2 s) g)
            e.gameStarted t))) := by
  refine ⟨hostRunActions_fst e g _, ?_⟩
  rw [hostRunActions_snd_append]
  have hsingle : (hostRunActions e (hostRunActions e g pre).1 [(t, a)]).2 =
      [(e.channels.filter (fun c => c.dcOpen)).map (fun c =>
        (c.odPeerId,
          stateSyncMessage (applyGameAction t a (hostRunActions e g pre).1) e.gameStarted t))] := by
    simp [hostRunActions, applyGameActionHost, hMp, hHost, broadcastState, broadcastToClients]
  rw [hsingle, List.getLast?_concat, hostRunActions_fst]
  simp [List.foldl_append]

/-- C1 witness: the sample host with two open channels, one prior action and
a final `SET_COUNTER` action. -/
theorem C1_witness :
    sampleHostEnv.isHost = true ∧ isMultiplayer sampleHostEnv = true ∧
    ((hostRunActions sampleHostEnv sampleGameState
        (sampleEvents ++ [(2, GameAction.SET_COUNTER "p2" "poison" 4)])).1 =
      (sampleEvents ++ [(2, GameAction.SET_COUNTER "p2" "poison" 4)]).foldl
        (fun s (ta : Int × GameAction) => applyGameAction ta.1 ta.2 s) sampleGameState ∧
    (hostRunActions sampleHostEnv sampleGameState
        (sampleEvents ++ [(2, GameAction.SET_COUNTER "p2" "poison" 4)])).2.getLast? =
      some ((sampleHostEnv.channels.filter (fun c => c.dcOpen)).map (fun c =>
        (c.odPeerId,
          stateSyncMessage
            ((sampleEvents ++ [(2, GameAction.SET_COUNTER "p2" "poison" 4)]).foldl
              (fun s (ta : Int × GameAction) => applyGameAction ta.1 ta.2 s) sampleGameState)
            sampleHostEnv.gameStarted 2)))) :=
  ⟨rfl, rfl, C1_host_action_fanout sampleHostEnv sampleGameState sampleEvents 2
    (GameAction.SET_COUNTER "p2" "poison" 4) rfl rfl⟩

/-- A key found by `mapGet` makes the map's membership test true. -/
theorem any_of_mapGet_some {β : Type} {m : List (String × β)} {k : String} {v : β}
    (h : mapGet m k = some v) : m.any (fun p => p.1 == k) = true := by
  unfold mapGet at h
  cases hf : m.find? (fun p => p.1 == k) with
  | none => rw [hf] at h; simp at h
  | some pr =>
      exact List.any_eq_true.mpr
        ⟨pr, List.mem_of_find?_eq_some hf, (List.find?_eq_some.mp hf).1⟩

/-- Setting an existing key keeps the key list unchanged. -/
theorem keys_mapSet_of_mem {β : Type} (m : List (String × β)) (k : String) (v : β)
    (hc : m.any (fun p => p.1 == k) = true) :
    (mapSet m k v).map Prod.fst = m.map Prod.fst := by
  unfold mapSet
  rw [if_pos hc, List.map_map]
  apply List.map_congr_left
  intro p _
  by_cases h : p.1 = k
  · simp [h]
  · simp [h]

/-- Setting a fresh key appends it to the key list. -/
theorem keys_mapSet_of_not_mem {β : Type} (m : List (String × β)) (k : String) (v : β)
    (hc : m.any (fun p => p.1 == k) = false) :
    (mapSet m k v).map Prod.fst = m.map Prod.fst ++ [k] := by
  unfold mapSet
  rw [if_neg (by simp [hc])]
  simp

/-- `mapSet` preserves distinctness of keys. -/
theorem nodup_keys_mapSet {β : Type} (m : List (String × β)) (k : String) (v : β)
    (hnd : (m.map Prod.fst).Nodup) : ((mapSet m k v).map Prod.fst).Nodup := by
  cases hc : m.any (fun p => p.1 == k) with
  | true => rw [keys_mapSet_of_mem m k v hc]; exact hnd
  | false =>
      rw [keys_mapSet_of_not_mem m k v hc]
      have hknot : k ∉ m.map Prod.fst := by
        intro hk
        obtain ⟨p, hp, hpk⟩ := List.mem_map.mp hk
        have hany : m.any (fun q => q.1 == k) = true :=
          List.any_eq_true.mpr ⟨p, hp, by simp [hpk]⟩
        rw [hc] at hany
        exact Bool.false_ne_true hany
      simp [List.nodup_append, hnd, hknot]

/-- `mapDelete` preserves distinctness of keys. -/
theorem nodup_keys_mapDelete {β : Type} (m : List (String × β)) (k : String)
    (hnd : (m.map Prod.fst).Nodup) : ((mapDelete m k).map Prod.fst).Nodup :=
  hnd.sublist ((List.filter_sublist m).map Prod.fst)

/-- Setting an existing key keeps the map's size. -/
theorem mapSet_length_of_mem {β : Type} (m : List (String × β)) (k : String) (v : β)
    (hc : m.any (fun p => p.1 == k) = true) :
    (mapSet m k v).length = m.length := by
  unfold mapSet
  rw [if_pos hc]
  exact List.length_map _ _

/-- Replacing an existing key's entry makes `find?` return the new entry. -/
theorem find?_replace_self {β : Type} (m : List (String × β)) (k : String) (v : β)
    (hc : m.any (fun p => p.1 == k) = true) :
    (m.map (fun p => if p.1 == k then (k, v) else p)).find? (fun p => p.1 == k) =
      some (k, v) := by
  induction m with
  | nil => simp at hc
  | cons p rest ih =>
      by_cases h : p.1 = k
      · have hhead : (if p.1 == k then (k, v) else p) = (k, v) := by simp [h]
        rw [List.map_cons, hhead, List.find?_cons_of_pos _ (by simp)]
      · have hhead : (if p.1 == k then (k, v) else p) = p := by simp [h]
        have hc2 : rest.any (fun q => q.1 == k) = true := by
          simpa [List.any_cons, h] using hc
        rw [List.map_cons, hhead, List.find?_cons_of_neg _ (by simpa using h)]
        exact ih hc2

/-- After `mapSet`, looking the key up yields the new value. -/
theorem mapGet_mapSet_self {β : Type} (m : List (String × β)) (k : String) (v : β) :
    mapGet (mapSet m k v) k = some v := by
  cases hc : m.any (fun p => p.1 == k) with
  | true =>
      unfold mapSet
      rw [if_pos hc]
      unfold mapGet
      rw [find?_replace_self m k v hc]
      rfl
  | false =>
      unfold mapSet
      rw [if_neg (by simp [hc])]
      unfold mapGet
      rw [List.find?_append]
      have hnone : m.find? (fun p => p.1 == k) = none := by
        rw [List.find?_eq_none]
        intro p hp hpk
        have hany : m.any (fun q => q.1 == k) = true := List.any_eq_true.mpr ⟨p, hp, hpk⟩
        rw [hc] at hany
        exact Bool.false_ne_true hany
      simp [hnone, List.find?_cons]

/-- `loadLobbyState` never touches the roster. -/
theorem loadLobbyState_connections (st : RelayState) :
    (loadLobbyState st).connections = st.connections := by
  unfold loadLobbyState
  split <;> rfl

/-- An attach leaves the roster untouched or replaces it by a `mapSet`. -/
theorem handleWebSocket_connections (req : AttachRequest) (st : RelayState) :
    (handleWebSocket req st).1.connections = st.connections ∨
    ∃ k v, (handleWebSocket req st).1.connections = mapSet st.connections k v := by
  have hload := loadLobbyState_connections st
  cases hpid : req.odPeerId with
  | none => exact Or.inl (by simp [handleWebSocket, hpid])
  | some p =>
      simp only [handleWebSocket, hpid]
      cases hls2 : (loadLobbyState st).lobbyState with
      | none =>
          simp only [hls2]
          exact Or.inl hload
      | some ls =>
          simp only [hls2]
          split
          · exact Or.inl hload
          · refine Or.inr ⟨p,
              { odPeerId := p, peerName := jsOrStr req.peerName "Player",
                peerPicture := jsOrUndefined req.peerPicture, isHost := p == ls.hostId }, ?_⟩
            rw [← hload]

/-- A detach leaves the roster untouched, deletes one key, or clears it. -/
theorem webSocketClose_connections (pid : Option String) (st : RelayState) :
    (webSocketClose pid st).1.connections = st.connections ∨
    (∃ k, (webSocketClose pid st).1.connections = mapDelete st.connections k) ∨
    (webSocketClose pid st).1.connections = [] := by
  cases pid with
  | none => exact Or.inl rfl
  | some p =>
      simp only [webSocketClose]
      cases hls : st.lobbyState with
      | none => exact Or.inr (Or.inl ⟨p, rfl⟩)
      | some ls =>
          by_cases hh : p == ls.hostId
          · simp only [hh, if_true]
            by_cases hs : st.hostSuspended
            · simp only [hs, if_true]
              exact Or.inr (Or.inl ⟨p, rfl⟩)
            · simp only [hs, if_false]
              exact Or.inr (Or.inr rfl)
          · simp only [hh, if_false]
            exact Or.inr (Or.inl ⟨p, rfl⟩)

/-- An inbound frame never changes the roster. -/
theorem webSocketMessage_connections (pid : Option String) (raw : Option ClientMsg)
    (st : RelayState) : (webSocketMessage pid raw st).1.connections = st.connections := by
  unfold webSocketMessage handleMessage
  repeat' split <;> try rfl

/-- One relay event preserves distinctness of roster keys. -/
theorem relayStep_keys_nodup (st : RelayState) (ev : RelayEvent)
    (hnd : (relayKeys st).Nodup) : (relayKeys (relayStep st ev)).Nodup := by
  cases ev with
  | attach req =>
      rcases handleWebSocket_connections req st with h | ⟨k, v, h⟩
      · simpa [relayStep, relayKeys, h] using hnd
      · simp only [relayStep, relayKeys, h]
        exact nodup_keys_mapSet _ _ _ hnd
  | detach pid =>
      rcases webSocketClose_connections pid st with h | ⟨k, h⟩ | h
      · simpa [relayStep, relayKeys, h] using hnd
      · simp only [relayStep, relayKeys, h]
        exact nodup_keys_mapDelete _ _ hnd
      · simp [relayStep, relayKeys, h]
  | message pid raw =>
      simpa [relayStep, relayKeys, webSocketMessage_connections pid raw st] using hnd

/-- Any sequence of relay events preserves distinctness of roster keys. -/
theorem relayRun_keys_nodup (st : RelayState) (evs : List RelayEvent)
    (hnd : (relayKeys st).Nodup) : (relayKeys (relayRun st evs)).Nodup := by
  induction evs generalizing st with
  | nil => exact hnd
  | cons ev rest ih =>
      simp only [relayRun, List.foldl_cons]
      exact ih _ (relayStep_keys_nodup st ev hnd)

/-- C6: the relay holds at most one connection per peer id. Distinctness of
the roster keys is preserved by every sequence of attaches, detaches and
inbound frames; and an attach by an already-attached peer id first closes the
prior connection, replaces that peer's map entry with the new connection
(lookup now yields the fresh metadata), keeps the roster size unchanged (so
the reconnecting peer is not counted twice against the capacity) and is
accepted. -/
theorem C6_one_connection_per_peer (st : RelayState) (evs : List RelayEvent)
    (ls : SignalingLobbyState) (req : AttachRequest) (p : String) (m : PeerMeta)
    (hnd : (relayKeys st).Nodup)
    (hls : st.lobbyState = some ls)
    (hpeer : req.odPeerId = some p)
    (hex : mapGet st.connections p = some m) :
    (relayKeys (relayRun st evs)).Nodup ∧
    (handleWebSocket req st).2.1.head? =
      some (RelayEffect.closeWs p 1000 "Reconnected from another session") ∧
    (handleWebSocket req st).1.connections.length = st.connections.length ∧
    mapGet (handleWebSocket req st).1.connections p =
      some { odPeerId := p, peerName := jsOrStr req.peerName "Player",
             peerPicture := jsOrUndefined req.peerPicture, isHost := p == ls.hostId } ∧
    (handleWebSocket req st).2.2 = AttachResult.accepted p (p == ls.hostId) := by
  have hload : loadLobbyState st = st := by simp [loadLobbyState, hls]
  refine ⟨relayRun_keys_nodup st evs hnd, ?_, ?_, ?_, ?_⟩
  · simp only [handleWebSocket, hpeer, hload, hls]
    rw [if_neg (by simp [hex])]
    simp [hex]
  · simp only [handleWebSocket, hpeer, hload, hls]
    rw [if_neg (by simp [hex])]
    exact mapSet_length_of_mem _ _ _ (any_of_mapGet_some hex)
  · simp only [handleWebSocket, hpeer, hload, hls]
    rw [if_neg (by simp [hex])]
    exact mapGet_mapSet_self _ _ _
  · simp only [handleWebSocket, hpeer, hload, hls]
    rw [if_neg (by simp [hex])]

/-- C6 witness: client `c1` of the full lobby reattaching (while another peer
detaches and a new attach is attempted in the surrounding event sequence). -/
theorem C6_witness :
    (relayKeys fullRelayState).Nodup ∧
    fullRelayState.lobbyState = some sampleLobby ∧
    mapGet fullRelayState.connections "c1" = some (sampleMeta "c1" false) ∧
    ((relayKeys (relayRun fullRelayState
        [RelayEvent.detach (some "c5"), RelayEvent.attach { odPeerId := some "c9" }])).Nodup ∧
      (handleWebSocket { odPeerId := some "c1", peerName := some "Rejoined" } fullRelayState).2.1.head? =
        some (RelayEffect.closeWs "c1" 1000 "Reconnected from another session") ∧
      (handleWebSocket { odPeerId := some "c1", peerName := some "Rejoined" }
          fullRelayState).1.connections.length = fullRelayState.connections.length ∧
      mapGet (handleWebSocket { odPeerId := some "c1", peerName := some "Rejoined" }
          fullRelayState).1.connections "c1" =
        some { odPeerId := "c1", peerName := jsOrStr (some "Rejoined") "Player",
               peerPicture := jsOrUndefined none, isHost := "c1" == sampleLobby.hostId } ∧
      (handleWebSocket { odPeerId := some "c1", peerName := some "Rejoined" }
          fullRelayState).2.2 = AttachResult.accepted "c1" ("c1" == sampleLobby.hostId)) :=
  ⟨by decide, rfl, by decide,
    C6_one_connection_per_peer fullRelayState
      [RelayEvent.detach (some "c5"), RelayEvent.attach { odPeerId := some "c9" }]
      sampleLobby { odPeerId := some "c1", peerName := some "Rejoined" } "c1"
      (sampleMeta "c1" false) (by decide) rfl rfl (by decide)⟩

end Vitality
